import Mathlib

/-!
Verification development for the AWS cost-saving app (src/server.js).

The backend is sequential orchestration over five resource kinds
(EC2 instances, EBS volumes, S3 buckets, RDS databases, Lambda functions).
We embed the pure computational content of server.js: metric aggregation
(getMetric), price-lookup fallback (getHourlyPrice), the per-resource
classification and cost logic of fetchServiceResources, the long-idle
decision and accumulation of the /api/scan handler, and the control flow
of the scan (state update, notification, error response).  Network
effects are embedded by passing the values the awaited calls return
(metric samples, price-lookup outcomes, raw describe records) as
explicit inputs.  JS numbers are modelled as rationals, Date values as
integer epoch milliseconds, and JS strings as Lean strings.
-/

/-- Map from region code to Pricing API location name (server.js lines 47-53).
An unmapped region yields the empty string, the falsy default of
regionToLocation[region] || empty. -/
def regionToLocation (region : String) : String :=
  if region = "us-east-1" then "US East (N. Virginia)"
  else if region = "us-east-2" then "US East (Ohio)"
  else if region = "us-west-1" then "US West (N. California)"
  else if region = "us-west-2" then "US West (Oregon)"
  else if region = "eu-west-1" then "EU (Ireland)"
  else ""

/-- Sampling period chosen by getMetric (server.js line 70): hourly for a
lookback of at most one day, daily otherwise. -/
def metricPeriod (days : ℚ) : ℕ :=
  if days ≤ 1 then 3600 else 86400

/-- Local aggregation performed by getMetric (server.js lines 84-88) on the
list of sample values returned by the metric query: for the Sum statistic
a fold-sum starting at 0; otherwise (the Average statistic) the mean of
the samples, or 0 when there are none. -/
def getMetricValue (stat : String) (values : List ℚ) : ℚ :=
  if stat = "Sum" then values.foldl (· + ·) 0
  else if values.length > 0 then values.foldl (· + ·) 0 / (values.length : ℚ)
  else 0

/-- Outcome of the pricing query inside getHourlyPrice: either the call or
the parse of the first price record threw (failed), or it returned the
PriceList whose entries parse to hourly USD prices. -/
inductive PriceLookupOutcome where
  | failed : PriceLookupOutcome
  | priceList : List ℚ → PriceLookupOutcome
  deriving DecidableEq

/-- getHourlyPrice (server.js lines 92-112): the price parsed from the first
PriceList entry when present; 0 on an empty PriceList or any thrown error
(the try/catch swallows it and falls through to return 0). -/
def getHourlyPrice : PriceLookupOutcome → ℚ
  | .failed => 0
  | .priceList [] => 0
  | .priceList (p :: _) => p

/-- Raw EC2 instance attributes used by server.js (DescribeInstances). -/
structure Ec2Instance where
  instanceId : String
  instanceType : String
  stateName : String
  launchTime : Int
  deriving DecidableEq

/-- Raw EBS volume attributes used by server.js (DescribeVolumes). -/
structure EbsVolume where
  volumeId : String
  volumeType : String
  state : String
  size : ℚ
  createTime : Int
  deriving DecidableEq

/-- Raw S3 bucket attributes used by server.js (ListBuckets). -/
structure S3Bucket where
  name : String
  creationDate : Int
  deriving DecidableEq

/-- Raw RDS instance attributes used by server.js (DescribeDBInstances). -/
structure RdsInstance where
  dbInstanceIdentifier : String
  dbInstanceClass : String
  engine : String
  dbInstanceStatus : String
  instanceCreateTime : Int
  deriving DecidableEq

/-- Raw Lambda function attributes used by server.js (ListFunctions). -/
structure LambdaFn where
  functionName : String
  runtime : String
  memorySize : ℚ
  lastModified : Int
  deriving DecidableEq

/-- The per-resource record server.js builds (one JS object shape per kind;
here a single structure with the union of the fields, unused fields kept
at their defaults, mirroring fields absent from a given JS object). -/
structure ResourceRecord where
  service : String
  region : String
  id : String := ""
  name : String := ""
  rtype : String := ""
  engine : String := ""
  runtime : String := ""
  state : String := ""
  size : ℚ := 0
  memory : ℚ := 0
  creation : Int := 0
  avgCpu : ℚ := 0
  numObjects : ℚ := 0
  sizeGB : ℚ := 0
  invocations : ℚ := 0
  usageStatus : String
  monthlyCost : ℚ
  deriving DecidableEq

/-- The CPU-threshold classification repeated verbatim at server.js lines
181-183, 288-290, 432-434, 567-569, 705-707, 840-842. -/
def cpuStatus (p : ℚ) : String :=
  if p < 1 then "idle" else if p < 10 then "underutilized" else "used"

/-- EC2 per-instance enrichment on the on-demand fetch path (server.js lines
166-203): the record starts with usageStatus equal to the provider state
and cost 0; a running instance gets the CPU classification and, when the
region has a pricing location, hourly price times 730 as monthly cost; a
stopped instance gets status stopped and cost 0.  The boolean records
whether the getHourlyPrice call site was reached. -/
def processEc2 (region : String) (inst : Ec2Instance) (avgCpu1d hourly : ℚ) :
    ResourceRecord × Bool :=
  let r0 : ResourceRecord :=
    { service := "ec2", region := region, id := inst.instanceId,
      rtype := inst.instanceType, state := inst.stateName,
      creation := inst.launchTime, avgCpu := 0,
      usageStatus := inst.stateName, monthlyCost := 0 }
  if inst.stateName = "running" then
    let r1 := { r0 with avgCpu := avgCpu1d, usageStatus := cpuStatus avgCpu1d }
    if regionToLocation region ≠ "" then
      ({ r1 with monthlyCost := hourly * 730 }, true)
    else (r1, false)
  else if inst.stateName = "stopped" then
    ({ r0 with usageStatus := "stopped", monthlyCost := 0 }, false)
  else (r0, false)

/-- EC2 per-instance enrichment on the scan paths (server.js lines 416-454
and 689-727): identical to the fetch path except that the price query is
additionally guarded by usageStatus not being stopped (a vacuous extra
conjunct inside the running branch, kept for faithfulness). -/
def processEc2Scan (region : String) (inst : Ec2Instance) (avgCpu1d hourly : ℚ) :
    ResourceRecord × Bool :=
  let r0 : ResourceRecord :=
    { service := "ec2", region := region, id := inst.instanceId,
      rtype := inst.instanceType, state := inst.stateName,
      creation := inst.launchTime, avgCpu := 0,
      usageStatus := inst.stateName, monthlyCost := 0 }
  if inst.stateName = "running" then
    let r1 := { r0 with avgCpu := avgCpu1d, usageStatus := cpuStatus avgCpu1d }
    if regionToLocation region ≠ "" ∧ r1.usageStatus ≠ "stopped" then
      ({ r1 with monthlyCost := hourly * 730 }, true)
    else (r1, false)
  else if inst.stateName = "stopped" then
    ({ r0 with usageStatus := "stopped", monthlyCost := 0 }, false)
  else (r0, false)

/-- RDS per-database enrichment (identical bodies on the fetch path,
server.js lines 272-307, and both scan paths, lines 550-587 and 823-860):
like EC2 with the running state replaced by available. -/
def processRds (region : String) (db : RdsInstance) (avgCpu1d hourly : ℚ) :
    ResourceRecord × Bool :=
  let r0 : ResourceRecord :=
    { service := "rds", region := region, id := db.dbInstanceIdentifier,
      rtype := db.dbInstanceClass, engine := db.engine,
      state := db.dbInstanceStatus, creation := db.instanceCreateTime,
      avgCpu := 0, usageStatus := db.dbInstanceStatus, monthlyCost := 0 }
  if db.dbInstanceStatus = "available" then
    let r1 := { r0 with avgCpu := avgCpu1d, usageStatus := cpuStatus avgCpu1d }
    if regionToLocation region ≠ "" then
      ({ r1 with monthlyCost := hourly * 730 }, true)
    else (r1, false)
  else if db.dbInstanceStatus = "stopped" then
    ({ r0 with usageStatus := "stopped", monthlyCost := 0 }, false)
  else (r0, false)

/-- Fixed per-GB monthly price table for EBS volume types (server.js line
209), with 0.10 as the default for an unknown type. -/
def typePriceGb (t : String) : ℚ :=
  if t = "gp2" then 10/100
  else if t = "gp3" then 8/100
  else if t = "io1" then 125/1000
  else if t = "st1" then 45/1000
  else if t = "sc1" then 25/1000
  else 10/100

/-- EBS per-volume record (server.js lines 210-225, identical on the scan
paths): status used exactly for the in-use state, cost size times the
per-GB rate. -/
def processEbs (region : String) (vol : EbsVolume) : ResourceRecord :=
  { service := "ebs", region := region, id := vol.volumeId,
    rtype := vol.volumeType, state := vol.state, size := vol.size,
    creation := vol.createTime,
    usageStatus := if vol.state = "in-use" then "used" else "idle",
    monthlyCost := vol.size * typePriceGb vol.volumeType }

/-- S3 per-bucket record (server.js lines 242-264, identical on the scan
paths): status used exactly when the 1-day average object count is
positive; cost is the standard-storage size in GB times 0.023. -/
def processS3 (region : String) (b : S3Bucket) (numObjects sizeBytes : ℚ) :
    ResourceRecord :=
  let sizeGB := sizeBytes / (1024 ^ 3 : ℚ)
  { service := "s3", region := region, name := b.name,
    creation := b.creationDate, numObjects := numObjects, sizeGB := sizeGB,
    usageStatus := if numObjects > 0 then "used" else "idle",
    monthlyCost := sizeGB * (23/1000) }

/-- Lambda monthly cost formula (server.js lines 332-337): request cost
invocations times 0.0000002 plus GB-seconds times 0.0000166667, the sum
scaled by 30 days. -/
def lambdaMonthlyCost (invocations avgDuration memory : ℚ) : ℚ :=
  let totalDurationS := (avgDuration / 1000) * invocations
  let gbS := totalDurationS * (memory / 1024)
  let reqCost := invocations * (2 / 10000000)
  let computeCost := gbS * (166667 / 10000000000)
  (reqCost + computeCost) * 30

/-- Lambda per-function record (server.js lines 314-339, identical on the
scan paths): status used exactly when the 1-day invocation sum is
positive, and the cost formula applied only then (cost stays 0
otherwise). -/
def processLambda (region : String) (fn : LambdaFn) (invocations avgDuration : ℚ) :
    ResourceRecord :=
  { service := "lambda", region := region, name := fn.functionName,
    runtime := fn.runtime, memory := fn.memorySize,
    creation := fn.lastModified, invocations := invocations,
    usageStatus := if invocations > 0 then "used" else "idle",
    monthlyCost :=
      if invocations > 0 then lambdaMonthlyCost invocations avgDuration fn.memorySize
      else 0 }

/-- The four derived usage labels the spec allows. -/
def usageEnum : List String := ["used", "idle", "underutilized", "stopped"]

/-- One resource processed by the scan loop, together with the values the
awaited metric and price calls return for it.  The last rational of the
ec2 and rds constructors is the 30-day CPU average (the longMetric query,
issued in the running or available branch and read only there); for s3 it
is the 30-day object-count average and for lambda the 30-day invocation
sum. -/
inductive ScanInput where
  | ec2 (inst : Ec2Instance) (avgCpu1d hourly longMetric : ℚ)
  | ebs (vol : EbsVolume)
  | s3 (b : S3Bucket) (numObjects sizeBytes longNumObjects : ℚ)
  | rds (db : RdsInstance) (avgCpu1d hourly longMetric : ℚ)
  | lambdaFn (fn : LambdaFn) (invocations avgDuration longInvocations : ℚ)
  deriving DecidableEq

/-- The record the scan loop builds for one input, with the price-query
flag (server.js lines 416-454, 471-485, 511-532, 550-587, 603-627). -/
def scanRecordQ (region : String) : ScanInput → ResourceRecord × Bool
  | .ec2 inst cpu hp _ => processEc2Scan region inst cpu hp
  | .ebs vol => (processEbs region vol, false)
  | .s3 b no sb _ => (processS3 region b no sb, false)
  | .rds db cpu hp _ => processRds region db cpu hp
  | .lambdaFn fn inv dur _ => (processLambda region fn inv dur, false)

/-- Thirty days in milliseconds (server.js line 402). -/
def thirtyDaysMs : Int := 2592000000

/-- Creation timestamp of a scan input (the field compared against
thirtyDaysAgo in the long-idle conditions). -/
def scanInputCreation : ScanInput → Int
  | .ec2 inst _ _ _ => inst.launchTime
  | .ebs vol => vol.createTime
  | .s3 b _ _ _ => b.creationDate
  | .rds db _ _ _ => db.instanceCreateTime
  | .lambdaFn fn _ _ _ => fn.lastModified

/-- The per-kind long-idle decisions of the scan loops (server.js lines
460-463 ec2, 492-494 ebs, 541-543 s3, 593-596 rds, 634-636 lambda; the
cron job repeats them verbatim).  The 30-day metric local variable is
initialised to 0 and assigned only in the running or available branch,
and the condition reads it only under that same state test, so passing it
as a parameter is behaviourally identical. -/
def longIdleFlag (now : Int) : ScanInput → Bool
  | .ec2 inst _ _ lm =>
      decide (inst.launchTime < now - thirtyDaysMs) &&
        (decide (inst.stateName = "stopped") ||
          (decide (inst.stateName = "running") && decide (lm < 1)))
  | .ebs vol =>
      decide (vol.createTime < now - thirtyDaysMs) &&
        decide (vol.state = "available")
  | .s3 b _ _ lno =>
      decide (b.creationDate < now - thirtyDaysMs) && decide (lno = 0)
  | .rds db _ _ lm =>
      decide (db.instanceCreateTime < now - thirtyDaysMs) &&
        (decide (db.dbInstanceStatus = "stopped") ||
          (decide (db.dbInstanceStatus = "available") && decide (lm < 1)))
  | .lambdaFn fn _ _ linv =>
      decide (fn.lastModified < now - thirtyDaysMs) && decide (linv = 0)

/-- Long-idle condition transcribed from the words of claim C2: created
more than 30 days ago AND (state stopped, or the kind-specific 30-day
aggregate shows no activity: CPU average below 1 for compute and
database, invocation sum 0 for functions, object-count average 0 for
buckets; the claim names no aggregate clause for block volumes). -/
def claimedLongIdleCond (now : Int) : ScanInput → Bool
  | .ec2 inst _ _ lm =>
      decide (inst.launchTime < now - thirtyDaysMs) &&
        (decide (inst.stateName = "stopped") || decide (lm < 1))
  | .ebs vol =>
      decide (vol.createTime < now - thirtyDaysMs) &&
        decide (vol.state = "stopped")
  | .s3 b _ _ lno =>
      decide (b.creationDate < now - thirtyDaysMs) && decide (lno = 0)
  | .rds db _ _ lm =>
      decide (db.instanceCreateTime < now - thirtyDaysMs) &&
        (decide (db.dbInstanceStatus = "stopped") || decide (lm < 1))
  | .lambdaFn fn _ _ linv =>
      decide (fn.lastModified < now - thirtyDaysMs) && decide (linv = 0)

/-- The claim C2 condition amended minimally: block volumes additionally
qualify through the available state (a detached volume), which is what
the code tests for them in place of a 30-day aggregate. -/
def amendedLongIdleCond (now : Int) : ScanInput → Bool
  | .ec2 inst a h lm => claimedLongIdleCond now (.ec2 inst a h lm)
  | .ebs vol =>
      decide (vol.createTime < now - thirtyDaysMs) &&
        (decide (vol.state = "stopped") || decide (vol.state = "available"))
  | .s3 b a c lno => claimedLongIdleCond now (.s3 b a c lno)
  | .rds db a h lm => claimedLongIdleCond now (.rds db a h lm)
  | .lambdaFn fn a d linv => claimedLongIdleCond now (.lambdaFn fn a d linv)

/-- One iteration of the scan accumulation (the push statements of the
scan loops): a record whose usageStatus is not used goes to the unused
list, and a record whose long-idle condition holds goes to the long-idle
list. -/
def scanStep (now : Int) (acc : List ResourceRecord × List ResourceRecord)
    (entry : String × ScanInput) : List ResourceRecord × List ResourceRecord :=
  let r := (scanRecordQ entry.1 entry.2).1
  (if r.usageStatus ≠ "used" then acc.1 ++ [r] else acc.1,
   if longIdleFlag now entry.2 then acc.2 ++ [r] else acc.2)

/-- The full accumulation of a scan over its (region, resource) inputs in
order, starting from empty lists (server.js lines 400-642). -/
def scanAccumulate (now : Int) (inputs : List (String × ScanInput)) :
    List ResourceRecord × List ResourceRecord :=
  inputs.foldl (scanStep now) ([], [])

/-- Outcome of the fetch phase of a scan: either some awaited provider
call threw (failure) before the accumulation completed, or the phase
completed over the given inputs. -/
inductive FetchOutcome where
  | failure : FetchOutcome
  | success (now : Int) (inputs : List (String × ScanInput)) : FetchOutcome
  deriving DecidableEq

/-- Response of the /api/scan handler: the JSON unused-resource payload,
or the HTTP 500 error body from the catch. -/
inductive ScanResponse where
  | ok (unusedResources : List ResourceRecord) : ScanResponse
  | serverError : ScanResponse
  deriving DecidableEq

/-- Observable outcome of one /api/scan invocation: the value of the
process-wide lastUnusedResources variable afterwards, the HTTP response,
and the list of sendNotification invocations (each with its argument). -/
structure ScanResult where
  lastUnusedResources : List ResourceRecord
  response : ScanResponse
  notificationsSent : List (List ResourceRecord)
  deriving DecidableEq

/-- Control flow of the /api/scan handler (server.js lines 396-655).  A
throw during the fetch phase is caught with the state untouched.  On
completion the handler first overwrites lastUnusedResources (line 644),
then calls sendNotification exactly when the long-idle list is non-empty
(lines 645-649); a notification throw is caught and answered with the
error response, the state having already been overwritten. -/
def runScan (pre : List ResourceRecord) (f : FetchOutcome) (notifyOk : Bool) :
    ScanResult :=
  match f with
  | .failure => ⟨pre, .serverError, []⟩
  | .success now inputs =>
      let acc := scanAccumulate now inputs
      if acc.2.length > 0 then
        if notifyOk then ⟨acc.1, .ok acc.1, [acc.2]⟩
        else ⟨acc.1, .serverError, [acc.2]⟩
      else ⟨acc.1, .ok acc.1, []⟩

/-- One EC2 instance on the fetch path with its awaited call results. -/
structure Ec2Fetch where
  inst : Ec2Instance
  avgCpu1d : ℚ
  hourly : ℚ
  deriving DecidableEq

/-- One RDS database on the fetch path with its awaited call results. -/
structure RdsFetch where
  db : RdsInstance
  avgCpu1d : ℚ
  hourly : ℚ
  deriving DecidableEq

/-- One S3 bucket on the fetch path: the GetBucketLocation outcome (none
when the call threw, some constraint otherwise, the empty constraint
standing for us-east-1) and the two 1-day metric averages. -/
structure S3Fetch where
  bucket : S3Bucket
  loc : Option String
  numObjects : ℚ
  sizeBytes : ℚ
  deriving DecidableEq

/-- One Lambda function on the fetch path with its awaited call results. -/
structure LambdaFetch where
  fn : LambdaFn
  invocations : ℚ
  avgDuration : ℚ
  deriving DecidableEq

/-- Resolved bucket region: locRes.LocationConstraint with us-east-1 as
the falsy default (server.js line 239). -/
def bucketRegionOf (c : String) : String :=
  if c = "" then "us-east-1" else c

/-- Input of fetchServiceResources for one service in one region: the raw
records the describe call returned, paired with the values the per-record
awaited calls return. -/
inductive FetchInput where
  | ec2 (insts : List Ec2Fetch)
  | ebs (vols : List EbsVolume)
  | s3 (buckets : List S3Fetch)
  | rds (dbs : List RdsFetch)
  | lambdaFns (fns : List LambdaFetch)
  deriving DecidableEq

/-- fetchServiceResources (server.js lines 156-347): builds the record
list for the service and accumulates totalCostEstimate exactly where the
code adds to it — for ec2 and rds inside the pricing branch (so only when
the price query ran), for ebs and s3 for every record, for lambda inside
the positive-invocations branch.  S3 buckets whose location lookup threw
are skipped, as are buckets resolving to a different region. -/
def fetchServiceResources (region : String) : FetchInput → List ResourceRecord × ℚ
  | .ec2 insts =>
      let prs := insts.map fun e => processEc2 region e.inst e.avgCpu1d e.hourly
      (prs.map Prod.fst,
       (prs.map fun pr => if pr.2 then pr.1.monthlyCost else 0).sum)
  | .ebs vols =>
      let recs := vols.map (processEbs region)
      (recs, (recs.map fun r => r.monthlyCost).sum)
  | .s3 buckets =>
      let kept := buckets.filter fun e =>
        match e.loc with
        | none => false
        | some c => bucketRegionOf c == region
      let recs := kept.map fun e => processS3 region e.bucket e.numObjects e.sizeBytes
      (recs, (recs.map fun r => r.monthlyCost).sum)
  | .rds dbs =>
      let prs := dbs.map fun e => processRds region e.db e.avgCpu1d e.hourly
      (prs.map Prod.fst,
       (prs.map fun pr => if pr.2 then pr.1.monthlyCost else 0).sum)
  | .lambdaFns fns =>
      let recs := fns.map fun e => processLambda region e.fn e.invocations e.avgDuration
      (recs,
       (fns.map fun e =>
          if e.invocations > 0 then
            (processLambda region e.fn e.invocations e.avgDuration).monthlyCost
          else 0).sum)

/-- The all-services branch of GET /api/resources (server.js lines
369-380): concatenates the per-(region, service) resource lists and adds
the per-call totals, starting from the empty list and 0. -/
def apiResourcesAll (fetches : List (String × FetchInput)) :
    List ResourceRecord × ℚ :=
  fetches.foldl
    (fun acc entry =>
      let fr := fetchServiceResources entry.1 entry.2
      (acc.1 ++ fr.1, acc.2 + fr.2))
    ([], 0)

/-- C1: for a running compute instance or an available managed database
with 1-day average CPU percentage p, the derived usageStatus is idle when
p < 1, underutilized when 1 <= p < 10, and used when p >= 10, the
boundary values 1 and 10 falling into the higher tier; both the fetch and
the scan classification agree with this threshold map. -/
theorem cpu_threshold_classification :
    (∀ p : ℚ, (p < 1 → cpuStatus p = "idle") ∧
      (1 ≤ p → p < 10 → cpuStatus p = "underutilized") ∧
      (10 ≤ p → cpuStatus p = "used")) ∧
    (∀ region inst cpu hp, inst.stateName = "running" →
      (processEc2 region inst cpu hp).1.usageStatus = cpuStatus cpu ∧
      (processEc2Scan region inst cpu hp).1.usageStatus = cpuStatus cpu) ∧
    (∀ region db cpu hp, db.dbInstanceStatus = "available" →
      (processRds region db cpu hp).1.usageStatus = cpuStatus cpu) := by
  refine ⟨fun p => ⟨?_, ?_, ?_⟩,
    fun region inst cpu hp h => ⟨?_, ?_⟩, fun region db cpu hp h => ?_⟩
  · intro h1; simp [cpuStatus, h1]
  · intro h1 h10; simp [cpuStatus, not_lt.mpr h1, h10]
  · intro h10
    have h1 : ¬ (p < 1) := not_lt.mpr (by linarith)
    simp [cpuStatus, h1, not_lt.mpr h10]
  · simp only [processEc2, h, if_true, reduceIte]
    split <;> rfl
  · simp only [processEc2Scan, h, if_true, reduceIte]
    split <;> rfl
  · simp only [processRds, h, if_true, reduceIte]
    split <;> rfl

/-- Witness for C1: concrete evaluations at the boundary values and at a
concrete running instance. -/
theorem cpu_threshold_classification_witness :
    cpuStatus (1/2) = "idle" ∧ cpuStatus 1 = "underutilized" ∧
    cpuStatus 10 = "used" ∧
    (processEc2 "us-east-1" ⟨"i-1", "t3.micro", "running", 0⟩ 5 1).1.usageStatus =
      cpuStatus 5 ∧
    (processRds "us-east-1" ⟨"db-1", "db.t3.micro", "mysql", "available", 0⟩ 5 1).1.usageStatus =
      cpuStatus 5 :=
  ⟨(cpu_threshold_classification.1 (1/2)).1 (by norm_num),
   (cpu_threshold_classification.1 1).2.1 (by norm_num) (by norm_num),
   (cpu_threshold_classification.1 10).2.2 (by norm_num),
   ((cpu_threshold_classification.2.1 "us-east-1" ⟨"i-1", "t3.micro", "running", 0⟩ 5 1) rfl).1,
   (cpu_threshold_classification.2.2 "us-east-1" ⟨"db-1", "db.t3.micro", "mysql", "available", 0⟩ 5 1) rfl⟩

/-- C2 counterexample: an available EBS volume created before the 30-day
cutoff is added to longIdleResources by the scan (server.js lines
492-494), although the condition claimed in C2 (state stopped, or a
kind-specific 30-day aggregate showing no activity, none being named for
block volumes) does not hold for it. -/
theorem longIdle_claimed_counterexample :
    longIdleFlag 10000000000000 (.ebs ⟨"vol-1", "gp2", "available", 100, 0⟩) = true ∧
    claimedLongIdleCond 10000000000000 (.ebs ⟨"vol-1", "gp2", "available", 100, 0⟩) = false := by
  decide

/-- C2 amended: a resource is added to longIdleResources only if it was
created more than 30 days before the scan AND (its state is stopped, or
for block volumes its state is available, or the kind-specific 30-day
aggregate shows no activity); in particular a resource created 5 days
before the scan is never added. -/
theorem longIdle_only_old_inactive :
    (∀ now input, longIdleFlag now input = true →
      amendedLongIdleCond now input = true) ∧
    (∀ now input, scanInputCreation input = now - 432000000 →
      longIdleFlag now input = false) := by
  constructor
  · intro now input h
    cases input <;>
      simp_all only [longIdleFlag, amendedLongIdleCond, claimedLongIdleCond,
        Bool.and_eq_true, Bool.or_eq_true, decide_eq_true_eq] <;>
      tauto
  · intro now input h
    have key : ¬ (now - 432000000 < now - (2592000000 : Int)) := by omega
    cases input <;>
      simp_all only [longIdleFlag, scanInputCreation, thirtyDaysMs,
        Bool.and_eq_false_iff, decide_eq_false_iff_not] <;>
      tauto

/-- Witness for C2: the amended condition holds at the concrete volume the
code flags, and a volume created exactly 5 days before the scan is not
flagged. -/
theorem longIdle_only_old_inactive_witness :
    amendedLongIdleCond 10000000000000 (.ebs ⟨"vol-1", "gp2", "available", 100, 0⟩) = true ∧
    longIdleFlag 10000000000000
      (.ebs ⟨"vol-2", "gp2", "available", 100, 9999568000000⟩) = false :=
  ⟨longIdle_only_old_inactive.1 _ _ (by decide),
   longIdle_only_old_inactive.2 _ _ (by decide)⟩

/-- The label produced by the CPU thresholds is one of the four derived
labels. -/
lemma cpuStatus_mem_usageEnum (p : ℚ) : cpuStatus p ∈ usageEnum := by
  unfold cpuStatus usageEnum
  split_ifs <;> simp

/-- A running instance on the fetch path gets the CPU classification. -/
lemma processEc2_running_status (region : String) (inst : Ec2Instance)
    (cpu hp : ℚ) (h : inst.stateName = "running") :
    (processEc2 region inst cpu hp).1.usageStatus = cpuStatus cpu := by
  simp only [processEc2, h, reduceIte]
  split <;> rfl

/-- A running instance on the scan path gets the CPU classification. -/
lemma processEc2Scan_running_status (region : String) (inst : Ec2Instance)
    (cpu hp : ℚ) (h : inst.stateName = "running") :
    (processEc2Scan region inst cpu hp).1.usageStatus = cpuStatus cpu := by
  simp only [processEc2Scan, h, reduceIte]
  split <;> rfl

/-- An available database gets the CPU classification. -/
lemma processRds_available_status (region : String) (db : RdsInstance)
    (cpu hp : ℚ) (h : db.dbInstanceStatus = "available") :
    (processRds region db cpu hp).1.usageStatus = cpuStatus cpu := by
  simp only [processRds, h, reduceIte]
  split <;> rfl

/-- A stopped instance on the fetch path: status stopped, cost 0, no price
query. -/
lemma processEc2_stopped_fields (region : String) (inst : Ec2Instance)
    (cpu hp : ℚ) (h : inst.stateName = "stopped") :
    (processEc2 region inst cpu hp).1.usageStatus = "stopped" ∧
    (processEc2 region inst cpu hp).1.monthlyCost = 0 ∧
    (processEc2 region inst cpu hp).2 = false := by
  simp only [processEc2, h, reduceIte]
  exact ⟨rfl, rfl, rfl⟩

/-- A stopped instance on the scan path: status stopped, cost 0, no price
query. -/
lemma processEc2Scan_stopped_fields (region : String) (inst : Ec2Instance)
    (cpu hp : ℚ) (h : inst.stateName = "stopped") :
    (processEc2Scan region inst cpu hp).1.usageStatus = "stopped" ∧
    (processEc2Scan region inst cpu hp).1.monthlyCost = 0 ∧
    (processEc2Scan region inst cpu hp).2 = false := by
  simp only [processEc2Scan, h, reduceIte]
  exact ⟨rfl, rfl, rfl⟩

/-- A stopped database: status stopped, cost 0, no price query. -/
lemma processRds_stopped_fields (region : String) (db : RdsInstance)
    (cpu hp : ℚ) (h : db.dbInstanceStatus = "stopped") :
    (processRds region db cpu hp).1.usageStatus = "stopped" ∧
    (processRds region db cpu hp).1.monthlyCost = 0 ∧
    (processRds region db cpu hp).2 = false := by
  simp only [processRds, h, reduceIte]
  exact ⟨rfl, rfl, rfl⟩

/-- An instance neither running nor stopped keeps the provider state as
usageStatus on the fetch path. -/
lemma processEc2_other_status (region : String) (inst : Ec2Instance)
    (cpu hp : ℚ) (h1 : inst.stateName ≠ "running") (h2 : inst.stateName ≠ "stopped") :
    (processEc2 region inst cpu hp).1.usageStatus = inst.stateName := by
  unfold processEc2
  rw [if_neg h1, if_neg h2]

/-- An instance neither running nor stopped keeps the provider state as
usageStatus on the scan path. -/
lemma processEc2Scan_other_status (region : String) (inst : Ec2Instance)
    (cpu hp : ℚ) (h1 : inst.stateName ≠ "running") (h2 : inst.stateName ≠ "stopped") :
    (processEc2Scan region inst cpu hp).1.usageStatus = inst.stateName := by
  unfold processEc2Scan
  rw [if_neg h1, if_neg h2]

/-- A database neither available nor stopped keeps the provider state as
usageStatus. -/
lemma processRds_other_status (region : String) (db : RdsInstance)
    (cpu hp : ℚ) (h1 : db.dbInstanceStatus ≠ "available") (h2 : db.dbInstanceStatus ≠ "stopped") :
    (processRds region db cpu hp).1.usageStatus = db.dbInstanceStatus := by
  unfold processRds
  rw [if_neg h1, if_neg h2]

/-- C3 counterexample: a terminated EC2 instance keeps the
provider-supplied state string as its usageStatus (server.js line 174 is
only overwritten in the running and stopped branches), so the produced
record carries a usageStatus outside the four derived labels. -/
theorem usageStatus_enum_counterexample :
    (processEc2 "us-east-1" ⟨"i-1", "t3.micro", "terminated", 0⟩ 0 0).1.usageStatus
        = "terminated" ∧
    (processEc2 "us-east-1" ⟨"i-1", "t3.micro", "terminated", 0⟩ 0 0).1.usageStatus
        ∉ usageEnum := by
  decide

/-- C3 amended: every produced record carries one of the four derived
labels, except compute instances whose provider state is neither running
nor stopped and databases whose provider state is neither available nor
stopped, for which the provider state string passes through as
usageStatus unchanged. -/
theorem usageStatus_enum_amended :
    (∀ region inst cpu hp,
      inst.stateName = "running" ∨ inst.stateName = "stopped" →
      (processEc2 region inst cpu hp).1.usageStatus ∈ usageEnum ∧
      (processEc2Scan region inst cpu hp).1.usageStatus ∈ usageEnum) ∧
    (∀ region inst cpu hp,
      inst.stateName ≠ "running" → inst.stateName ≠ "stopped" →
      (processEc2 region inst cpu hp).1.usageStatus = inst.stateName ∧
      (processEc2Scan region inst cpu hp).1.usageStatus = inst.stateName) ∧
    (∀ region db cpu hp,
      db.dbInstanceStatus = "available" ∨ db.dbInstanceStatus = "stopped" →
      (processRds region db cpu hp).1.usageStatus ∈ usageEnum) ∧
    (∀ region db cpu hp,
      db.dbInstanceStatus ≠ "available" → db.dbInstanceStatus ≠ "stopped" →
      (processRds region db cpu hp).1.usageStatus = db.dbInstanceStatus) ∧
    (∀ region vol, (processEbs region vol).usageStatus ∈ usageEnum) ∧
    (∀ region b no sb, (processS3 region b no sb).usageStatus ∈ usageEnum) ∧
    (∀ region fn inv dur, (processLambda region fn inv dur).usageStatus ∈ usageEnum) := by
  refine ⟨fun region inst cpu hp h => ?_, fun region inst cpu hp h1 h2 =>
      ⟨processEc2_other_status region inst cpu hp h1 h2,
       processEc2Scan_other_status region inst cpu hp h1 h2⟩,
    fun region db cpu hp h => ?_, fun region db cpu hp h1 h2 =>
      processRds_other_status region db cpu hp h1 h2,
    fun region vol => ?_, fun region b no sb => ?_, fun region fn inv dur => ?_⟩
  · rcases h with h | h
    · rw [processEc2_running_status region inst cpu hp h,
        processEc2Scan_running_status region inst cpu hp h]
      exact ⟨cpuStatus_mem_usageEnum cpu, cpuStatus_mem_usageEnum cpu⟩
    · rw [(processEc2_stopped_fields region inst cpu hp h).1,
        (processEc2Scan_stopped_fields region inst cpu hp h).1]
      constructor <;> decide
  · rcases h with h | h
    · rw [processRds_available_status region db cpu hp h]
      exact cpuStatus_mem_usageEnum cpu
    · rw [(processRds_stopped_fields region db cpu hp h).1]
      decide
  · simp only [processEbs]
    split <;> decide
  · simp only [processS3]
    split <;> decide
  · simp only [processLambda]
    split <;> decide

/-- Witness for C3: concrete instantiations of the stopped, passthrough
and available cases. -/
theorem usageStatus_enum_amended_witness :
    (processEc2 "us-east-1" ⟨"i-1", "t3.micro", "stopped", 0⟩ 0 0).1.usageStatus ∈ usageEnum ∧
    (processEc2 "us-east-1" ⟨"i-2", "t3.micro", "pending", 0⟩ 0 0).1.usageStatus = "pending" ∧
    (processRds "us-east-1" ⟨"db-1", "db.t3.micro", "mysql", "available", 0⟩ 3 1).1.usageStatus ∈ usageEnum :=
  ⟨(usageStatus_enum_amended.1 "us-east-1" ⟨"i-1", "t3.micro", "stopped", 0⟩ 0 0 (Or.inr rfl)).1,
   (usageStatus_enum_amended.2.1 "us-east-1" ⟨"i-2", "t3.micro", "pending", 0⟩ 0 0
      (by decide) (by decide)).1,
   usageStatus_enum_amended.2.2.1 "us-east-1" ⟨"db-1", "db.t3.micro", "mysql", "available", 0⟩ 3 1
      (Or.inl rfl)⟩

/-- C4 counterexample: a scan that completes accumulation with a non-empty
long-idle list and then fails in sendNotification answers with the error
response, yet lastUnusedResources (empty before the scan) has already
been overwritten with the accumulated unused list (server.js line 644
runs before line 646). -/
theorem scan_error_state_counterexample :
    (runScan [] (.success 10000000000000
        [("us-east-1", ScanInput.ebs ⟨"vol-1", "gp2", "available", 100, 0⟩)]) false).response
      = ScanResponse.serverError ∧
    (runScan [] (.success 10000000000000
        [("us-east-1", ScanInput.ebs ⟨"vol-1", "gp2", "available", 100, 0⟩)]) false).lastUnusedResources
      ≠ [] := by
  decide

/-- C4 amended: a failure during the fetch phase aborts the scan with an
error and leaves lastUnusedResources at its pre-scan value with no
notification sent; a failure in the notification step also surfaces an
error, but lastUnusedResources has by then been overwritten with the
completed accumulation. -/
theorem scan_failure_semantics :
    (∀ pre notifyOk, runScan pre .failure notifyOk = ⟨pre, .serverError, []⟩) ∧
    (∀ pre now inputs, (scanAccumulate now inputs).2 ≠ [] →
      runScan pre (.success now inputs) false =
        ⟨(scanAccumulate now inputs).1, .serverError,
         [(scanAccumulate now inputs).2]⟩) := by
  constructor
  · intro pre notifyOk
    rfl
  · intro pre now inputs h
    have hlen : 0 < (scanAccumulate now inputs).2.length := List.length_pos.mpr h
    simp [runScan, hlen]

/-- Witness for C4: the fetch-failure case at a concrete pre-state, and
the notification-failure case at a concrete input with a non-empty
long-idle list. -/
theorem scan_failure_semantics_witness :
    runScan [] .failure true = ⟨[], .serverError, []⟩ ∧
    runScan [] (.success 10000000000000
        [("us-east-1", ScanInput.ebs ⟨"vol-9", "gp3", "available", 50, 0⟩)]) false =
      ⟨(scanAccumulate 10000000000000
          [("us-east-1", ScanInput.ebs ⟨"vol-9", "gp3", "available", 50, 0⟩)]).1,
       .serverError,
       [(scanAccumulate 10000000000000
          [("us-east-1", ScanInput.ebs ⟨"vol-9", "gp3", "available", 50, 0⟩)]).2]⟩ :=
  ⟨scan_failure_semantics.1 [] true,
   scan_failure_semantics.2 [] 10000000000000
     [("us-east-1", ScanInput.ebs ⟨"vol-9", "gp3", "available", 50, 0⟩)] (by decide)⟩

/-- C5: in a scan whose accumulation completes, sendNotification is
invoked exactly once, with the long-idle list, when that list is
non-empty, and not at all when it is empty; an aborted fetch phase sends
nothing either. -/
theorem notify_exactly_when_long_idle (pre : List ResourceRecord) (now : Int)
    (inputs : List (String × ScanInput)) (notifyOk : Bool) :
    (runScan pre (.success now inputs) notifyOk).notificationsSent =
      (if (scanAccumulate now inputs).2 = [] then []
       else [(scanAccumulate now inputs).2]) ∧
    (runScan pre .failure notifyOk).notificationsSent = [] := by
  constructor
  · simp only [runScan]
    rcases h : (scanAccumulate now inputs).2 with _ | ⟨r, rs⟩
    · simp [h]
    · simp only [h, List.length_cons]
      cases notifyOk <;> simp
  · rfl

/-- C6: a stopped compute instance (on both the fetch and the scan path)
and a stopped managed database have monthlyCost 0 and reach no
getHourlyPrice call site, for every instance type, engine, region and
metric value. -/
theorem stopped_zero_cost_no_price_query :
    (∀ region inst cpu hp, inst.stateName = "stopped" →
      (processEc2 region inst cpu hp).1.monthlyCost = 0 ∧
      (processEc2 region inst cpu hp).2 = false ∧
      (processEc2Scan region inst cpu hp).1.monthlyCost = 0 ∧
      (processEc2Scan region inst cpu hp).2 = false) ∧
    (∀ region db cpu hp, db.dbInstanceStatus = "stopped" →
      (processRds region db cpu hp).1.monthlyCost = 0 ∧
      (processRds region db cpu hp).2 = false) := by
  constructor
  · intro region inst cpu hp h
    obtain ⟨-, c1, q1⟩ := processEc2_stopped_fields region inst cpu hp h
    obtain ⟨-, c2, q2⟩ := processEc2Scan_stopped_fields region inst cpu hp h
    exact ⟨c1, q1, c2, q2⟩
  · intro region db cpu hp h
    obtain ⟨-, c, q⟩ := processRds_stopped_fields region db cpu hp h
    exact ⟨c, q⟩

/-- Witness for C6: a concrete stopped instance and database. -/
theorem stopped_zero_cost_no_price_query_witness :
    (processEc2 "us-east-1" ⟨"i-3", "m5.large", "stopped", 0⟩ 50 3).1.monthlyCost = 0 ∧
    (processRds "eu-west-1" ⟨"db-2", "db.r5.large", "postgres", "stopped", 0⟩ 50 3).1.monthlyCost = 0 :=
  ⟨(stopped_zero_cost_no_price_query.1 "us-east-1" ⟨"i-3", "m5.large", "stopped", 0⟩ 50 3 rfl).1,
   (stopped_zero_cost_no_price_query.2 "eu-west-1" ⟨"db-2", "db.r5.large", "postgres", "stopped", 0⟩ 50 3 rfl).1⟩

/-- C7: with nonnegative inputs, the monthly cost of a function is 0
exactly when the 1-day invocation sum is 0, and for positive invocations
it equals the request-plus-compute formula scaled by 30; the concrete
case of 1000 invocations at 200 ms and 512 MB evaluates to 0.0560001,
within 0.0001 of 0.0560. -/
theorem lambda_cost_spec :
    (∀ region fn (inv dur : ℚ), 0 ≤ inv → 0 ≤ dur → 0 ≤ fn.memorySize →
      ((processLambda region fn inv dur).monthlyCost = 0 ↔ inv = 0) ∧
      (0 < inv → (processLambda region fn inv dur).monthlyCost =
        (inv * (2 / 10000000) +
          ((dur / 1000) * inv * (fn.memorySize / 1024)) * (166667 / 10000000000)) * 30)) ∧
    (processLambda "us-east-1" ⟨"fn-1", "nodejs18.x", 512, 0⟩ 1000 200).monthlyCost
      = 560001 / 10000000 ∧
    |(processLambda "us-east-1" ⟨"fn-1", "nodejs18.x", 512, 0⟩ 1000 200).monthlyCost
      - 56 / 1000| < 1 / 10000 := by
  refine ⟨fun region fn inv dur hinv hdur hmem => ?_,
    by norm_num [processLambda, lambdaMonthlyCost],
    by norm_num [processLambda, lambdaMonthlyCost, abs_lt]⟩
  by_cases hpos : 0 < inv
  · have hcost : (processLambda region fn inv dur).monthlyCost =
        lambdaMonthlyCost inv dur fn.memorySize := by
      simp [processLambda, hpos]
    have hformula : lambdaMonthlyCost inv dur fn.memorySize =
        (inv * (2 / 10000000) +
          ((dur / 1000) * inv * (fn.memorySize / 1024)) * (166667 / 10000000000)) * 30 := by
      unfold lambdaMonthlyCost
      ring
    have hgt : 0 < lambdaMonthlyCost inv dur fn.memorySize := by
      rw [hformula]
      positivity
    refine ⟨⟨fun hc => ?_, fun h0 => absurd (h0 ▸ hpos) (lt_irrefl 0)⟩,
      fun _ => by rw [hcost, hformula]⟩
    rw [hcost] at hc
    exact absurd hc (ne_of_gt hgt)
  · have h0 : inv = 0 := le_antisymm (not_lt.mp hpos) hinv
    have hcost : (processLambda region fn inv dur).monthlyCost = 0 := by
      simp [processLambda, hpos]
    exact ⟨⟨fun _ => h0, fun _ => hcost⟩, fun hlt => absurd hlt hpos⟩

/-- Witness for C7: a function with zero invocations has cost 0. -/
theorem lambda_cost_spec_witness :
    (processLambda "us-east-1" ⟨"fn-0", "nodejs18.x", 128, 0⟩ 0 0).monthlyCost = 0 :=
  ((lambda_cost_spec.1 "us-east-1" ⟨"fn-0", "nodejs18.x", 128, 0⟩ 0 0 le_rfl le_rfl
      (by decide)).1).mpr rfl

/-- C8: getMetric returns the arithmetic sum of the samples under the Sum
statistic (0 for no samples), the locally computed arithmetic mean under
the Average statistic (0 for no samples), and samples at an hourly period
for a lookback of at most one day and a daily period otherwise. -/
theorem getMetric_aggregation :
    (∀ values : List ℚ, getMetricValue "Sum" values = values.sum) ∧
    getMetricValue "Sum" [] = 0 ∧
    (∀ values : List ℚ, values ≠ [] →
      getMetricValue "Average" values = values.sum / (values.length : ℚ)) ∧
    getMetricValue "Average" [] = 0 ∧
    (∀ days : ℚ, days ≤ 1 → metricPeriod days = 3600) ∧
    (∀ days : ℚ, 1 < days → metricPeriod days = 86400) := by
  refine ⟨fun values => ?_, rfl, fun values h => ?_, rfl, fun days h => ?_, fun days h => ?_⟩
  · simp only [getMetricValue, reduceIte]
    exact (List.sum_eq_foldl).symm
  · unfold getMetricValue
    rw [if_neg (by decide), if_pos (by simpa using List.length_pos.mpr h),
      ← List.sum_eq_foldl]
  · simp [metricPeriod, h]
  · simp [metricPeriod, not_le.mpr h]

/-- Witness for C8: concrete aggregations and periods. -/
theorem getMetric_aggregation_witness :
    getMetricValue "Average" [1, 2, 3] =
      ([1, 2, 3] : List ℚ).sum / (([1, 2, 3] : List ℚ).length : ℚ) ∧
    metricPeriod 1 = 3600 ∧ metricPeriod 30 = 86400 :=
  ⟨getMetric_aggregation.2.2.1 [1, 2, 3] (by decide),
   getMetric_aggregation.2.2.2.2.1 1 le_rfl,
   getMetric_aggregation.2.2.2.2.2 30 (by norm_num)⟩

/-- C9: getHourlyPrice is a total function into prices; whenever the
product query failed or returned an empty PriceList it evaluates to 0, so
a price-lookup failure never propagates an error to the caller. -/
theorem price_lookup_error_returns_zero (r : PriceLookupOutcome)
    (h : r = .failed ∨ r = .priceList []) : getHourlyPrice r = 0 := by
  rcases h with h | h <;> subst h <;> rfl

/-- Witness for C9: both failure shapes evaluate to 0. -/
theorem price_lookup_error_returns_zero_witness :
    getHourlyPrice .failed = 0 ∧ getHourlyPrice (.priceList []) = 0 :=
  ⟨price_lookup_error_returns_zero _ (Or.inl rfl),
   price_lookup_error_returns_zero _ (Or.inr rfl)⟩

/-- On the fetch path, the ec2 cost contribution (added only when the
price query ran) equals the monthly cost of the record, since every
branch that skips the query leaves the cost at 0. -/
lemma processEc2_contrib (region : String) (inst : Ec2Instance) (cpu hp : ℚ) :
    (if (processEc2 region inst cpu hp).2
      then (processEc2 region inst cpu hp).1.monthlyCost else 0)
      = (processEc2 region inst cpu hp).1.monthlyCost := by
  simp only [processEc2]
  split
  · split <;> simp
  · split <;> simp

/-- Same as processEc2_contrib for databases. -/
lemma processRds_contrib (region : String) (db : RdsInstance) (cpu hp : ℚ) :
    (if (processRds region db cpu hp).2
      then (processRds region db cpu hp).1.monthlyCost else 0)
      = (processRds region db cpu hp).1.monthlyCost := by
  simp only [processRds]
  split
  · split <;> simp
  · split <;> simp

/-- The lambda cost contribution (added only for positive invocations)
equals the monthly cost of the record, the cost being 0 otherwise. -/
lemma processLambda_contrib (region : String) (fn : LambdaFn) (inv dur : ℚ) :
    (if inv > 0 then (processLambda region fn inv dur).monthlyCost else 0)
      = (processLambda region fn inv dur).monthlyCost := by
  simp only [processLambda]
  split <;> simp [*]

/-- The accumulated ec2 total equals the sum of the record costs. -/
lemma ec2_total_eq (region : String) (insts : List Ec2Fetch) :
    ((insts.map fun e => processEc2 region e.inst e.avgCpu1d e.hourly).map
      fun pr => if pr.2 then pr.1.monthlyCost else 0).sum =
    (((insts.map fun e => processEc2 region e.inst e.avgCpu1d e.hourly).map
      Prod.fst).map fun r => r.monthlyCost).sum := by
  induction insts with
  | nil => rfl
  | cons e es ih =>
    simp only [List.map_cons, List.sum_cons, ih, processEc2_contrib]

/-- The accumulated rds total equals the sum of the record costs. -/
lemma rds_total_eq (region : String) (dbs : List RdsFetch) :
    ((dbs.map fun e => processRds region e.db e.avgCpu1d e.hourly).map
      fun pr => if pr.2 then pr.1.monthlyCost else 0).sum =
    (((dbs.map fun e => processRds region e.db e.avgCpu1d e.hourly).map
      Prod.fst).map fun r => r.monthlyCost).sum := by
  induction dbs with
  | nil => rfl
  | cons e es ih =>
    simp only [List.map_cons, List.sum_cons, ih, processRds_contrib]

/-- The accumulated lambda total equals the sum of the record costs. -/
lemma lambda_total_eq (region : String) (fns : List LambdaFetch) :
    (fns.map fun e => if e.invocations > 0
      then (processLambda region e.fn e.invocations e.avgDuration).monthlyCost
      else 0).sum =
    ((fns.map fun e => processLambda region e.fn e.invocations e.avgDuration).map
      fun r => r.monthlyCost).sum := by
  induction fns with
  | nil => rfl
  | cons e es ih =>
    simp only [List.map_cons, List.sum_cons, ih, processLambda_contrib,
      List.map_map, Function.comp_def]

/-- For every service input, the totalCostEstimate accumulated by
fetchServiceResources equals the sum of the monthlyCost fields of the
records it returns. -/
lemma fetch_total_eq (region : String) (input : FetchInput) :
    (fetchServiceResources region input).2 =
      ((fetchServiceResources region input).1.map fun r => r.monthlyCost).sum := by
  cases input with
  | ec2 insts =>
    simp only [fetchServiceResources]
    exact ec2_total_eq region insts
  | ebs vols => rfl
  | s3 buckets => rfl
  | rds dbs =>
    simp only [fetchServiceResources]
    exact rds_total_eq region dbs
  | lambdaFns fns =>
    simp only [fetchServiceResources]
    exact lambda_total_eq region fns

/-- Fold invariant of the all-services accumulation: a start state whose
total is the sum of its record costs keeps that property. -/
lemma apiResourcesAll_aux (fetches : List (String × FetchInput))
    (acc : List ResourceRecord × ℚ)
    (h : acc.2 = (acc.1.map fun r => r.monthlyCost).sum) :
    (fetches.foldl (fun acc entry =>
        let fr := fetchServiceResources entry.1 entry.2
        (acc.1 ++ fr.1, acc.2 + fr.2)) acc).2 =
      ((fetches.foldl (fun acc entry =>
        let fr := fetchServiceResources entry.1 entry.2
        (acc.1 ++ fr.1, acc.2 + fr.2)) acc).1.map fun r => r.monthlyCost).sum := by
  induction fetches generalizing acc with
  | nil => simpa using h
  | cons f fs ih =>
    simp only [List.foldl_cons]
    exact ih _ (by simp [h, fetch_total_eq, List.map_append, List.sum_append])

/-- C10: for every service and region the totalCostEstimate returned by
fetchServiceResources equals the sum of the monthlyCost fields of the
resources it returns, and the all-services accumulation of GET
/api/resources preserves this equality. -/
theorem total_cost_is_sum :
    (∀ region input, (fetchServiceResources region input).2 =
      ((fetchServiceResources region input).1.map fun r => r.monthlyCost).sum) ∧
    (∀ fetches, (apiResourcesAll fetches).2 =
      ((apiResourcesAll fetches).1.map fun r => r.monthlyCost).sum) := by
  refine ⟨fetch_total_eq, fun fetches => ?_⟩
  simp only [apiResourcesAll]
  exact apiResourcesAll_aux fetches ([], 0) (by simp)
